import Mathlib

/-!
Shallow embedding of the game core of `src/bot.py` (a Telegram D&D bot):
the data model (`Character`, `Item`, `Enemy`), the purchase-line parser of
`GameEngine.process_action`, the deterministic damage fallback of
`AIGenerator.calculate_damage`, the combat resolver `GameEngine.process_attack`,
`GameEngine.start_battle`, `GameEngine.create_character`, and the battle table
operations of `Database` (`save_battle`, `get_battle`, `clear_battle`).

Python integers are modelled as `Int` (arbitrary precision, like Python),
Python `//` as `Int.fdiv` (floor division), Python `int()` applied to a
non-integer number as truncation toward zero, and the float expression in the
damage fallback as exact rational arithmetic (the doubles involved at the
magnitudes this program handles agree with the exact rationals at every input
used below).  Strings are Lean `String`s; the text operations the source uses
(`str.lower`, `str.strip`, `in`, and the two `re.search` patterns) are
modelled character for character on `List Char`, restricted to the ASCII and
Cyrillic ranges this program's own text uses.
-/

namespace DndBot

/-! ## Python text primitives -/

/-- Whitespace as Python's `str.strip` and the regex class `\s` treat ASCII:
space, tab, newline, carriage return, vertical tab, form feed. -/
def isSpaceChar (c : Char) : Bool :=
  c = ' ' || c = '\t' || c = '\n' || c = '\r' || c = '\x0b' || c = '\x0c'

/-- The regex class `\d` (the program's texts only use ASCII digits). -/
def isDigitChar (c : Char) : Bool :=
  '0' ≤ c && c ≤ '9'

/-- The regex class `\w`, restricted to the ASCII and Cyrillic letters, digits
and underscore that this program's texts use. -/
def isWordChar (c : Char) : Bool :=
  ('a' ≤ c && c ≤ 'z') || ('A' ≤ c && c ≤ 'Z') || isDigitChar c || c = '_' ||
    ('А' ≤ c && c ≤ 'я') || c = 'ё' || c = 'Ё'

/-- Python `str.lower` on the character ranges this program uses: ASCII
`A`-`Z` and Cyrillic `А`-`Я` map down by 0x20, `Ё` maps to `ё`; everything
else is unchanged. -/
def pyLowerChar (c : Char) : Char :=
  if 'A' ≤ c ∧ c ≤ 'Z' then Char.ofNat (c.toNat + 32)
  else if 'А' ≤ c ∧ c ≤ 'Я' then Char.ofNat (c.toNat + 32)
  else if c = 'Ё' then 'ё'
  else c

/-- Python `str.lower`. -/
def pyLower (s : String) : String :=
  String.mk (s.data.map pyLowerChar)

/-- Does the second list start with the first? -/
def beginsWith : List Char → List Char → Bool
  | [], _ => true
  | _ :: _, [] => false
  | a :: as, b :: bs => a = b && beginsWith as bs

/-- Python substring containment `needle in hay` over character lists. -/
def hasSub (needle : List Char) : List Char → Bool
  | [] => needle.isEmpty
  | c :: rest => beginsWith needle (c :: rest) || hasSub needle rest

/-- Python `needle in hay` on strings. -/
def strContains (hay needle : String) : Bool :=
  hasSub needle.data hay.data

/-- Python `str.strip()` (no argument: strips whitespace at both ends). -/
def pyStrip (s : List Char) : List Char :=
  ((s.dropWhile isSpaceChar).reverse.dropWhile isSpaceChar).reverse

/-- The numeric value of a digit list, as `int()` reads a decimal numeral. -/
def digitsVal (ds : List Char) : Nat :=
  ds.foldl (fun n c => 10 * n + (c.toNat - '0'.toNat)) 0

/-- The match of `re.search(r'(\d+)', s)`: the leftmost maximal run of
digits, or `none` when the text has no digit. -/
def firstDigitRun : List Char → Option (List Char)
  | [] => none
  | c :: rest =>
    if isDigitChar c then some ((c :: rest).takeWhile isDigitChar)
    else firstDigitRun rest

/-! ## Data model (the dataclasses of src/bot.py) -/

/-- The dataclass `Character`. -/
structure Character where
  user_id : Int
  name : String
  level : Int
  hp : Int
  max_hp : Int
  armor : Int
  strength : Int
  agility : Int
  intelligence : Int
  experience : Int
  gold : Int
  current_location : String
  location_state : String
  equipped_weapon : String
  equipped_armor : String
deriving DecidableEq

/-- The dataclass `Item`. -/
structure Item where
  name : String
  «type» : String
  damage : Int
  armor_bonus : Int
  heal : Int
  description : String
  item_id : String
deriving DecidableEq

/-- The dataclass `Enemy`. -/
structure Enemy where
  name : String
  hp : Int
  max_hp : Int
  armor : Int
  damage : Int
  experience_reward : Int
  gold_reward : Int
deriving DecidableEq

/-- The dict `AIGenerator.generate_enemy` returns (the generator's suggested
stats for a new enemy; its `description` key plays no role in the engine). -/
structure EnemyData where
  name : String
  hp : Int
  armor : Int
  damage : Int
deriving DecidableEq

/-- The character invariant of the spec: `0 <= hp <= max_hp`, `gold >= 0`,
`level >= 1`. -/
def charInvariant (c : Character) : Prop :=
  0 ≤ c.hp ∧ c.hp ≤ c.max_hp ∧ 0 ≤ c.gold ∧ 1 ≤ c.level

instance (c : Character) : Decidable (charInvariant c) := by
  unfold charInvariant; infer_instance

/-! ## The damage fallback of AIGenerator.calculate_damage

When the generator's judgement is unavailable or malformed, the source runs

    base_damage = char.strength + (char.agility // 2)
    critical = "крит" in action.lower() or "точно" in action.lower()
    damage = int(base_damage * (1.5 if critical else 1) - enemy.armor * 0.3)
    return {"damage": max(1, damage), "critical": critical, ...}

modelled here in exact arithmetic in place of IEEE doubles (the doubles agree
with the exact values at the magnitudes involved in the claims below).
`int()` truncates toward zero, and in exact arithmetic

    base_damage * (1.5 if critical else 1) - armor * 0.3
      = ((15 if critical else 10) * base_damage - 3 * armor) / 10

so the truncated damage is the integer T-division (`Int.tdiv`, which rounds
toward zero) of that numerator by 10. -/

/-- The critical-hit keyword test of the fallback:
`"крит" in action.lower() or "точно" in action.lower()`. -/
def criticalKeyword (action : String) : Bool :=
  strContains (pyLower action) "крит" || strContains (pyLower action) "точно"

/-- The fallback branch of `AIGenerator.calculate_damage`: the damage and the
critical flag it returns. -/
def calculate_damage_fallback (action : String) (char : Character) (enemy : Enemy) :
    Int × Bool :=
  let base_damage : Int := char.strength + Int.fdiv char.agility 2
  let critical := criticalKeyword action
  let damage : Int :=
    Int.tdiv ((if critical then 15 else 10) * base_damage - 3 * enemy.armor) 10
  (max 1 damage, critical)

/-! ## The purchase-line pattern of GameEngine.process_action

The source runs

    re.search(r'ПОКУПКА:\s*([^|]+)\|\s*(\d+)\|\s*(\w+)\|\s*(.+)', result_text)

The pattern is a fixed literal followed
by greedy single-class pieces, so Python's backtracking collapses to a
deterministic scan with two exceptions, handled explicitly below:

* in the first piece the whitespace class is contained in the
  anything-but-pipe class, so when the character after the maximal whitespace
  run is a pipe the engine gives the last whitespace character back to the
  group (the digit and word pieces cannot trade characters with the
  whitespace before them, the classes being disjoint, nor with the pipe after
  them);
* in the last piece the dot class excludes the newline while the whitespace
  class contains it, so at end of input the engine gives back trailing
  whitespace down to the last non-newline whitespace character.

`re.search` tries every start position from the left; a match must start with
the literal label. -/

/-- The literal label the pattern starts with. -/
def purchaseLabel : List Char := "ПОКУПКА:".data

/-- One attempt of the purchase pattern with the match anchored at the head of
`cs`: the four captured groups, or `none`. -/
def purchaseMatchAt (cs : List Char) : Option (List Char × List Char × List Char × List Char) :=
  if beginsWith purchaseLabel cs then
    let rest := cs.drop purchaseLabel.length
    let ws := rest.takeWhile isSpaceChar
    let r1 := rest.dropWhile isSpaceChar
    let g1r2 : Option (List Char × List Char) :=
      match r1 with
      | '|' :: r2 =>
        match ws.reverse with
        | [] => none
        | w :: _ => some ([w], r2)
      | _ =>
        match (r1.dropWhile (fun c => ¬ c = '|')) with
        | '|' :: r2 => some (r1.takeWhile (fun c => ¬ c = '|'), r2)
        | _ => none
    match g1r2 with
    | none => none
    | some (g1, r2) =>
      let r3 := r2.dropWhile isSpaceChar
      let g2 := r3.takeWhile isDigitChar
      if g2.isEmpty then none else
      match r3.drop g2.length with
      | '|' :: r4 =>
        let r5 := r4.dropWhile isSpaceChar
        let g3 := r5.takeWhile isWordChar
        if g3.isEmpty then none else
        match r5.drop g3.length with
        | '|' :: r6 =>
          let ws4 := r6.takeWhile isSpaceChar
          let r7 := r6.dropWhile isSpaceChar
          match r7 with
          | _ :: _ => some (g1, g2, g3, r7.takeWhile (fun c => ¬ c = '\n'))
          | [] =>
            match ws4.reverse.dropWhile (fun c => c = '\n') with
            | [] => none
            | w :: _ => some (g1, g2, g3, [w])
        | _ => none
      | _ => none
  else none

/-- `re.search` of the purchase pattern: the leftmost position where the
pattern matches, with its captured groups. -/
def purchaseSearch : List Char → Option (List Char × List Char × List Char × List Char)
  | [] => none
  | c :: rest =>
    match purchaseMatchAt (c :: rest) with
    | some g => some g
    | none => purchaseSearch rest

/-- The transient purchase offer `process_action` extracts from a matched
line: `group(1).strip()`, `int(group(2))`, `group(3).strip()`,
`group(4).strip()`. -/
structure PurchaseOffer where
  item_name : String
  price : Int
  item_type : String
  stats : String
deriving DecidableEq

/-- The purchase-offer extraction of `process_action` (lines 362-369). -/
def parsePurchase (result_text : String) : Option PurchaseOffer :=
  match purchaseSearch result_text.data with
  | none => none
  | some (g1, g2, g3, g4) =>
    some { item_name := String.mk (pyStrip g1)
           price := Int.ofNat (digitsVal g2)
           item_type := String.mk (pyStrip g3)
           stats := String.mk (pyStrip g4) }

/-! ## Stat inference and the purchase resolver of process_action -/

/-- The first integer of the stats text, as each of the three
`re.search(r'(\d+)', stats)` calls reads it, or 0 when the text has no digit
(the source then leaves the field at its initial 0). -/
def firstIntOr0 (stats : String) : Int :=
  match firstDigitRun stats.data with
  | some ds => Int.ofNat (digitsVal ds)
  | none => 0

/-- The three independent keyword tests of `process_action` (lines 374-391):
each field is set to the first integer of the stats text when its keyword
family occurs in the lowered text. -/
def inferStats (stats : String) : Int × Int × Int :=
  let low := pyLower stats
  let damage :=
    if strContains low "урон" || strContains low "damage" then firstIntOr0 stats else 0
  let armor_bonus :=
    if strContains low "броня" || strContains low "armor" then firstIntOr0 stats else 0
  let heal :=
    if strContains low "лечение" || strContains low "heal" || strContains low "hp" then
      firstIntOr0 stats
    else 0
  (damage, armor_bonus, heal)

/-- The `Item(...)` built for a successful purchase (lines 393-400). -/
def mkPurchasedItem (offer : PurchaseOffer) : Item :=
  { name := offer.item_name
    «type» := offer.item_type
    damage := (inferStats offer.stats).1
    armor_bonus := (inferStats offer.stats).2.1
    heal := (inferStats offer.stats).2.2
    description := offer.stats
    item_id := "" }

/-- The `purchase_info` dict of `process_action`: `success`, `item`, `price`,
and `gold_left` (success) or `gold_needed` (failure). -/
structure PurchaseInfo where
  success : Bool
  item : String
  price : Int
  gold_left : Option Int
  gold_needed : Option Int
deriving DecidableEq

/-- The check-then-act purchase resolution of `process_action`
(lines 371-417): on `char.gold >= price` deduct the price, append the new
item to the inventory and report the remaining gold; otherwise report the
shortfall and change nothing. -/
def applyPurchase (char : Character) (inv : List Item) (offer : PurchaseOffer) :
    PurchaseInfo × Character × List Item :=
  if offer.price ≤ char.gold then
    let char' := { char with gold := char.gold - offer.price }
    ({ success := true, item := offer.item_name, price := offer.price,
       gold_left := some char'.gold, gold_needed := none },
     char', inv ++ [mkPurchasedItem offer])
  else
    ({ success := false, item := offer.item_name, price := offer.price,
       gold_left := none, gold_needed := some (offer.price - char.gold) },
     char, inv)

/-- The purchase path of `process_action` on the generated text: extract the
offer, resolve it; no offer leaves the character and inventory untouched. -/
def process_action (char : Character) (inv : List Item) (result_text : String) :
    Option PurchaseInfo × Character × List Item :=
  match parsePurchase result_text with
  | none => (none, char, inv)
  | some offer =>
    let r := applyPurchase char inv offer
    (some r.1, r.2.1, r.2.2)

/-! ## The battle table of Database

The table `active_battles` keys the enemy record by `user_id BIGINT PRIMARY
KEY`; `save_battle` is `INSERT ... ON CONFLICT (user_id) DO UPDATE SET
enemy_data = EXCLUDED.enemy_data`, `get_battle` a point `SELECT`,
`clear_battle` a point `DELETE`.  The table is modelled as a list of rows;
the primary key makes the upsert update the existing row in place when one
with the key exists, and insert otherwise. -/

/-- The rows of `active_battles`. -/
abbrev BattleTable : Type := List (Int × Enemy)

/-- `Database.save_battle`: upsert keyed on `user_id`. -/
def save_battle (t : BattleTable) (uid : Int) (e : Enemy) : BattleTable :=
  if List.any t (fun r => r.1 == uid) then
    List.map (fun r => if r.1 == uid then (uid, e) else r) t
  else t ++ [(uid, e)]

/-- `Database.get_battle`: the stored enemy of the row keyed `uid`, if any. -/
def get_battle (t : BattleTable) (uid : Int) : Option Enemy :=
  (List.find? (fun r => r.1 == uid) t).map (fun r => r.2)

/-- `Database.clear_battle`: delete the row keyed `uid`. -/
def clear_battle (t : BattleTable) (uid : Int) : BattleTable :=
  List.filter (fun r => ! (r.1 == uid)) t

/-- The at-most-one-active-enemy invariant: no player identifier keys more
than one row of the table. -/
def pkInvariant (t : BattleTable) : Prop :=
  ∀ uid : Int, List.countP (fun r => r.1 == uid) t ≤ 1

/-! ## GameEngine -/

/-- `GameEngine.create_character`: the `Character(user_id=..., name=...)`
dataclass defaults, and the three starter items it adds to the inventory. -/
def create_character (user_id : Int) (name : String) : Character × List Item :=
  ({ user_id := user_id, name := name, level := 1, hp := 100, max_hp := 100,
     armor := 5, strength := 10, agility := 10, intelligence := 10,
     experience := 0, gold := 50, current_location := "Начальная деревня",
     location_state := "", equipped_weapon := "", equipped_armor := "" },
   [{ name := "Ржавый меч", «type» := "weapon", damage := 5, armor_bonus := 0,
      heal := 0, description := "Старый меч", item_id := "" },
    { name := "Кожаная броня", «type» := "armor", damage := 0, armor_bonus := 3,
      heal := 0, description := "Простая броня", item_id := "" },
    { name := "Зелье лечения", «type» := "potion", damage := 0, armor_bonus := 0,
      heal := 30, description := "Восстанавливает 30 HP", item_id := "" }])

/-- `GameEngine.start_battle`: builds the `Enemy` from the generator's
suggested stats but derives both reward fields from the character's level,
then upserts the battle row; the character itself is not modified. -/
def start_battle (char : Character) (enemy_data : EnemyData) (t : BattleTable) :
    Character × Enemy × BattleTable :=
  let enemy : Enemy :=
    { name := enemy_data.name, hp := enemy_data.hp, max_hp := enemy_data.hp,
      armor := enemy_data.armor, damage := enemy_data.damage,
      experience_reward := 20 * char.level, gold_reward := 10 * char.level }
  (char, enemy, save_battle t char.user_id enemy)

/-- The result dict of `GameEngine.process_attack`, with a field per key the
source may set (`Option` for the keys present only on some paths; the two
flavor strings of the judgement are omitted, no game state depends on them). -/
structure AttackResult where
  error : Bool
  player_damage : Int
  enemy_defeated : Bool
  level_up : Bool
  reward_exp : Option Int
  reward_gold : Option Int
  enemy_damage : Option Int
  enemy_hp : Option Int
  player_defeated : Bool
deriving DecidableEq

/-- The `{"error": "Нет активного боя"}` early return. -/
def noBattleResult : AttackResult :=
  { error := true, player_damage := 0, enemy_defeated := false, level_up := false,
    reward_exp := none, reward_gold := none, enemy_damage := none,
    enemy_hp := none, player_defeated := false }

/-- What one call of `process_attack` leaves behind: the result dict, the
saved character, and the battle row (`none` when the battle was cleared or
there was none). -/
structure AttackStep where
  result : AttackResult
  char : Character
  battle : Option Enemy
deriving DecidableEq

/-- `GameEngine.process_attack`, with the judged damage (the `"damage"` key
of `AIGenerator.calculate_damage`'s dict) passed in as `damage`:

* no stored battle: the error dict, nothing mutated;
* the damage is subtracted from the enemy's hit points; at zero or below the
  character gains both reward fields, levels up once when the accumulated
  experience reaches `level * 100`, and the battle is cleared;
* otherwise the enemy counterattacks for `max(1, enemy.damage - char.armor)`;
  at zero or below the character's hit points reset to `max_hp // 2`, the
  gold drops to `max(0, gold - 20)` and the battle is cleared, else the
  reduced enemy is saved back. -/
def process_attack (char : Character) (battle : Option Enemy) (damage : Int) :
    AttackStep :=
  match battle with
  | none => { result := noBattleResult, char := char, battle := none }
  | some enemy0 =>
    let enemy := { enemy0 with hp := enemy0.hp - damage }
    if enemy.hp ≤ 0 then
      let char1 := { char with experience := char.experience + enemy.experience_reward,
                               gold := char.gold + enemy.gold_reward }
      let exp_needed := char1.level * 100
      if exp_needed ≤ char1.experience then
        { result := { error := false, player_damage := damage, enemy_defeated := true,
                      level_up := true, reward_exp := some enemy.experience_reward,
                      reward_gold := some enemy.gold_reward, enemy_damage := none,
                      enemy_hp := none, player_defeated := false },
          char := { char1 with level := char1.level + 1, max_hp := char1.max_hp + 20,
                               hp := char1.max_hp + 20, strength := char1.strength + 2,
                               agility := char1.agility + 2 },
          battle := none }
      else
        { result := { error := false, player_damage := damage, enemy_defeated := true,
                      level_up := false, reward_exp := some enemy.experience_reward,
                      reward_gold := some enemy.gold_reward, enemy_damage := none,
                      enemy_hp := none, player_defeated := false },
          char := char1, battle := none }
    else
      let enemy_damage := max 1 (enemy.damage - char.armor)
      let char1 := { char with hp := char.hp - enemy_damage }
      if char1.hp ≤ 0 then
        { result := { error := false, player_damage := damage, enemy_defeated := false,
                      level_up := false, reward_exp := none, reward_gold := none,
                      enemy_damage := some enemy_damage, enemy_hp := some enemy.hp,
                      player_defeated := true },
          char := { char1 with hp := Int.fdiv char1.max_hp 2,
                               gold := max 0 (char1.gold - 20) },
          battle := none }
      else
        { result := { error := false, player_damage := damage, enemy_defeated := false,
                      level_up := false, reward_exp := none, reward_gold := none,
                      enemy_damage := some enemy_damage, enemy_hp := some enemy.hp,
                      player_defeated := false },
          char := char1, battle := some enemy }

/-! ## Concrete sample values used by witnesses and counterexamples -/

/-- A freshly created level-1 character (strength 10, agility 10), used as a
concrete input below. -/
def sampleChar : Character :=
  { user_id := 7, name := "Арен", level := 1, hp := 100, max_hp := 100,
    armor := 5, strength := 10, agility := 10, intelligence := 10,
    experience := 0, gold := 50, current_location := "Начальная деревня",
    location_state := "", equipped_weapon := "", equipped_armor := "" }

/-- A concrete enemy with armor 5, hit points 70, as the fallback-enemy shape
of `generate_enemy` could produce at level 1. -/
def sampleEnemy : Enemy :=
  { name := "Дикий волк", hp := 70, max_hp := 70, armor := 5, damage := 8,
    experience_reward := 20, gold_reward := 10 }

/-- A non-critical attack description: it contains neither of the critical
keywords. -/
def sampleAction : String := "Бью врага мечом"

/-! ## Properties and concrete inputs the claims below are stated with -/

/-- The worked purchase line of the spec, with the label of the source's own
prompt format (`ПОКУПКА:`) and the pipe separators spaced as that prompt
spaces them. -/
def spacedPurchaseLine : String := "ПОКУПКА: Iron Sword | 30 | weapon | damage 8"

/-- The same line with no whitespace between the price and its pipe nor
between the category and its pipe — the only spacing the source's pattern
accepts. -/
def tightPurchaseLine : String := "ПОКУПКА: Iron Sword | 30| weapon| damage 8"

/-- A line with the price field missing. -/
def noPricePurchaseLine : String := "ПОКУПКА: Iron Sword | weapon | damage 8"

/-- At most one of the three parsed stat fields is non-zero (the property
claim C6 asserts of every stats text). -/
def atMostOneNonzeroStat (r : Int × Int × Int) : Prop :=
  (r.2.1 = 0 ∧ r.2.2 = 0) ∨ (r.1 = 0 ∧ r.2.2 = 0) ∨ (r.1 = 0 ∧ r.2.1 = 0)

/-- The damage keyword family of `process_action` (line 378): the test that
guards the `damage` field. -/
def damageKeyword (stats : String) : Bool :=
  strContains (pyLower stats) "урон" || strContains (pyLower stats) "damage"

/-- The armor keyword family of `process_action` (line 383): the test that
guards the `armor_bonus` field. -/
def armorKeyword (stats : String) : Bool :=
  strContains (pyLower stats) "броня" || strContains (pyLower stats) "armor"

/-- The heal keyword family of `process_action` (line 388): the test that
guards the `heal` field. -/
def healKeyword (stats : String) : Bool :=
  strContains (pyLower stats) "лечение" || strContains (pyLower stats) "heal" ||
    strContains (pyLower stats) "hp"

/-- Some keyword of some family occurs in the stats text. -/
def hasAnyStatKeyword (stats : String) : Bool :=
  damageKeyword stats || armorKeyword stats || healKeyword stats

/-- The conclusion of claim C2 for one attack resolution against a stored
enemy: the enemy's hit points drop by exactly the judged damage, victory
holds exactly when they reach zero or below, and on victory the battle is
cleared, both rewards are credited, and the level-up block runs exactly once,
exactly when the post-reward experience reaches `level * 100`. -/
def attackVictoryConcl (char : Character) (enemy : Enemy) (d : Int) : Prop :=
  let s := process_attack char (some enemy) d
  (s.result.enemy_defeated = true ↔ enemy.hp - d ≤ 0) ∧
  (∀ e', s.battle = some e' → e'.hp = enemy.hp - d) ∧
  (enemy.hp - d ≤ 0 →
    s.battle = none ∧
    s.result.reward_exp = some enemy.experience_reward ∧
    s.result.reward_gold = some enemy.gold_reward ∧
    s.char.experience = char.experience + enemy.experience_reward ∧
    s.char.gold = char.gold + enemy.gold_reward ∧
    s.char.level = (if char.level * 100 ≤ char.experience + enemy.experience_reward
                    then char.level + 1 else char.level) ∧
    (char.level * 100 ≤ char.experience + enemy.experience_reward →
      s.result.level_up = true ∧ s.char.max_hp = char.max_hp + 20 ∧
      s.char.hp = s.char.max_hp ∧ s.char.strength = char.strength + 2 ∧
      s.char.agility = char.agility + 2) ∧
    (¬ char.level * 100 ≤ char.experience + enemy.experience_reward →
      s.result.level_up = false ∧ s.char.max_hp = char.max_hp ∧
      s.char.hp = char.hp ∧ s.char.strength = char.strength ∧
      s.char.agility = char.agility))

/-- The conclusion of claim C3 for one attack resolution the enemy survives:
the counterattack deals `max(1, enemy.damage - char.armor)`; when it drops
the character to zero or below, hit points reset to `max_hp // 2`, gold to
`max(0, gold - 20)` and the battle is cleared, otherwise the battle stays
active with the enemy's reduced hit points and the character's hit points
fall by the counterattack damage. -/
def attackSurviveConcl (char : Character) (enemy : Enemy) (d : Int) : Prop :=
  let s := process_attack char (some enemy) d
  let ed := max 1 (enemy.damage - char.armor)
  s.result.enemy_damage = some ed ∧
  s.result.enemy_defeated = false ∧
  (char.hp - ed ≤ 0 →
    s.char.hp = Int.fdiv char.max_hp 2 ∧
    s.char.gold = max 0 (char.gold - 20) ∧
    s.battle = none ∧
    s.result.player_defeated = true) ∧
  (0 < char.hp - ed →
    s.char.hp = char.hp - ed ∧
    s.char.gold = char.gold ∧
    s.battle = some { enemy with hp := enemy.hp - d } ∧
    s.result.player_defeated = false)

/-- The conclusion of claim C4 for one parsed purchase offer: with
`gold ≥ price` the purchase succeeds, gold drops by the price (and is
reported as `gold_left`), exactly one new item with the parsed stat fields is
appended to the inventory, and nothing else of the character changes; with
`gold < price` it fails reporting `gold_needed = price - gold` and mutates
neither the character nor the inventory. -/
def purchaseConcl (char : Character) (inv : List Item) (offer : PurchaseOffer) : Prop :=
  let r := applyPurchase char inv offer
  (offer.price ≤ char.gold →
    r.1.success = true ∧
    r.2.1.gold = char.gold - offer.price ∧
    r.1.gold_left = some (char.gold - offer.price) ∧
    r.2.2 = inv ++ [mkPurchasedItem offer] ∧
    { r.2.1 with gold := char.gold } = char) ∧
  (char.gold < offer.price →
    r.1.success = false ∧
    r.1.gold_needed = some (offer.price - char.gold) ∧
    r.2.1 = char ∧
    r.2.2 = inv)

/-! ## Claim C1 — the deterministic damage fallback -/

/-- Claim C1, counterexample: at strength 10, agility 10, enemy armor 5 and a
non-critical action text the fallback computes
`max(1, int(15 * 1 - 5 * 0.3)) = max(1, int(13.5)) = 13`, not the 14 the
claim asserts. -/
theorem claim_C1_cex :
    criticalKeyword sampleAction = false ∧
    (calculate_damage_fallback sampleAction sampleChar sampleEnemy).1 = 13 ∧
    ¬ (calculate_damage_fallback sampleAction sampleChar sampleEnemy).1 = 14 := by
  decide

/-- Claim C1 (amended): the fallback damage is
`max(1, int(floor-div(strength + agility/2) * (1.5 if critical else 1) - armor * 0.3))`
with `int()` truncating toward zero — in exact arithmetic the truncation of
`((15 if critical else 10) * (strength + agility // 2) - 3 * armor) / 10` —
with `critical` inferred by substring tests on the lowered action text; at
strength 10, agility 10, armor 5 and a non-critical action it yields 13. -/
theorem claim_C1 (action : String) (char : Character) (enemy : Enemy) :
    (calculate_damage_fallback action char enemy).1 =
      max 1 (Int.tdiv ((if criticalKeyword action then 15 else 10) *
        (char.strength + Int.fdiv char.agility 2) - 3 * enemy.armor) 10) ∧
    (calculate_damage_fallback action char enemy).2 = criticalKeyword action ∧
    (calculate_damage_fallback sampleAction sampleChar sampleEnemy).1 = 13 :=
  ⟨rfl, rfl, by decide⟩

/-! ## Claim C5 — the purchase-line parser -/

/-- Claim C5, evaluated on the code: the spec's well-formed worked line (pipe
separators written ` | `, as the source's own prompt asks the generator to
write them) yields NO purchase offer, because the pattern allows no
whitespace between the price digits and the following pipe (nor between the
category token and its pipe); with those two spaces removed the line parses
to the offer the claim describes; and a line with the price missing yields no
offer and no mutation. -/
theorem claim_C5 :
    parsePurchase spacedPurchaseLine = none ∧
    parsePurchase tightPurchaseLine =
      some { item_name := "Iron Sword", price := 30, item_type := "weapon",
             stats := "damage 8" } ∧
    parsePurchase noPricePurchaseLine = none ∧
    process_action sampleChar [] spacedPurchaseLine = (none, sampleChar, []) ∧
    (mkPurchasedItem { item_name := "Iron Sword", price := 30,
                       item_type := "weapon", stats := "damage 8" }).damage = 8 := by
  decide

/-! ## Claim C6 — stat inference from the free-text stats field -/

/-- Claim C6, counterexample: the three keyword tests are independent, so the
stats text `"damage 5 armor 3"` sets BOTH the damage and the armor-bonus
field (each to the first integer, 5) — two non-zero fields, not at most
one. -/
theorem claim_C6_cex :
    inferStats "damage 5 armor 3" = (5, 5, 0) ∧
    ¬ atMostOneNonzeroStat (inferStats "damage 5 armor 3") := by
  unfold atMostOneNonzeroStat
  decide

/-- Claim C6 (amended): each of the three fields is set independently by its
own keyword family — when the family occurs in the text the field carries the
first integer found in the whole stats text, and when it does not the field
is zero (so several fields may be non-zero simultaneously, all with the same
magnitude, and a field is non-zero only when its family occurs); when no
keyword of any family occurs, all three fields are zero. -/
theorem claim_C6 (stats : String) :
    (damageKeyword stats = true → (inferStats stats).1 = firstIntOr0 stats) ∧
    (damageKeyword stats = false → (inferStats stats).1 = 0) ∧
    (armorKeyword stats = true → (inferStats stats).2.1 = firstIntOr0 stats) ∧
    (armorKeyword stats = false → (inferStats stats).2.1 = 0) ∧
    (healKeyword stats = true → (inferStats stats).2.2 = firstIntOr0 stats) ∧
    (healKeyword stats = false → (inferStats stats).2.2 = 0) ∧
    (hasAnyStatKeyword stats = false → inferStats stats = (0, 0, 0)) := by
  refine ⟨fun h => ?_, fun h => ?_, fun h => ?_, fun h => ?_, fun h => ?_, fun h => ?_,
          fun h => ?_⟩
  · unfold damageKeyword at h
    unfold inferStats
    dsimp only
    rw [if_pos h]
  · unfold damageKeyword at h
    unfold inferStats
    dsimp only
    rw [if_neg (by simp [h])]
  · unfold armorKeyword at h
    unfold inferStats
    dsimp only
    rw [if_pos h]
  · unfold armorKeyword at h
    unfold inferStats
    dsimp only
    rw [if_neg (by simp [h])]
  · unfold healKeyword at h
    unfold inferStats
    dsimp only
    rw [if_pos h]
  · unfold healKeyword at h
    unfold inferStats
    dsimp only
    rw [if_neg (by simp [h])]
  · unfold hasAnyStatKeyword damageKeyword armorKeyword healKeyword at h
    simp only [Bool.or_eq_false_iff] at h
    obtain ⟨⟨⟨h1, h2⟩, h3, h4⟩, ⟨h5, h6⟩, h7⟩ := h
    unfold inferStats
    simp [h1, h2, h3, h4, h5, h6, h7]

/-! ## Claim C7 — attack with no active battle -/

/-- Claim C7: an attack processed with no stored battle returns the
no-active-battle error dict and mutates neither the character nor any battle
state. -/
theorem claim_C7 (char : Character) (d : Int) :
    process_attack char none d =
      { result := noBattleResult, char := char, battle := none } ∧
    noBattleResult.error = true :=
  ⟨rfl, rfl⟩

/-! ## Claim C8 — reward fields of a started battle -/

/-- Claim C8: every enemy `start_battle` creates for a character of level `L`
has `experience_reward = 20 * L` and `gold_reward = 10 * L`, whatever stats
the generator suggested. -/
theorem claim_C8 (char : Character) (ed : EnemyData) (t : BattleTable) :
    ((start_battle char ed t).2.1).experience_reward = 20 * char.level ∧
    ((start_battle char ed t).2.1).gold_reward = 10 * char.level :=
  ⟨rfl, rfl⟩

/-! ## Claim C2 — victory, rewards and the single level-up -/

/-- Claim C2: attack resolution in an active battle, for any judged damage
`d ≥ 0`. -/
theorem claim_C2 (char : Character) (enemy : Enemy) (d : Int) (_hd : 0 ≤ d) :
    attackVictoryConcl char enemy d := by
  unfold attackVictoryConcl process_attack
  dsimp only
  by_cases h1 : enemy.hp - d ≤ 0
  · by_cases h2 : char.level * 100 ≤ char.experience + enemy.experience_reward
    · simp [h1, h2]
    · simp [h1, h2]
  · by_cases h3 : char.hp - max 1 (enemy.damage - char.armor) ≤ 0
    · simp [h1, h3]
    · simp [h1, h3]

/-- Claim C2, witness at a concrete victorious attack: `sampleEnemy` at 70
hit points judged for 70 damage by `sampleChar` (no level-up: 20 experience
< 100). -/
theorem claim_C2_w : attackVictoryConcl sampleChar sampleEnemy 70 :=
  claim_C2 sampleChar sampleEnemy 70 (by decide)

/-! ## Claim C3 — counterattack and defeat -/

/-- Claim C3: attack resolution in an active battle the enemy survives
(`enemy.hp - d > 0`). -/
theorem claim_C3 (char : Character) (enemy : Enemy) (d : Int)
    (h : 0 < enemy.hp - d) : attackSurviveConcl char enemy d := by
  unfold attackSurviveConcl process_attack
  dsimp only
  have h1 : ¬ enemy.hp - d ≤ 0 := by omega
  by_cases h3 : char.hp - max 1 (enemy.damage - char.armor) ≤ 0
  · simp [h1, h3]
    omega
  · simp [h1, h3]

/-- Claim C3, witness at a concrete surviving attack: 13 damage against the
70-hit-point `sampleEnemy`; the counterattack deals `max(1, 8 - 5) = 3` and
`sampleChar` survives. -/
theorem claim_C3_w : attackSurviveConcl sampleChar sampleEnemy 13 :=
  claim_C3 sampleChar sampleEnemy 13 (by decide)

/-! ## Claim C4 — purchase resolution -/

/-- Claim C4: the check-then-act purchase resolution, for every character,
inventory and parsed offer. -/
theorem claim_C4 (char : Character) (inv : List Item) (offer : PurchaseOffer) :
    purchaseConcl char inv offer := by
  unfold purchaseConcl applyPurchase
  dsimp only
  by_cases h : offer.price ≤ char.gold
  · simp [h]
  · simp [h]

/-! ## Claim C9 — the character invariant is preserved -/

/-- Claim C9: attack resolution (for any judged damage, against any stored
enemy with a non-negative gold reward — every enemy `start_battle` stores has
one, see the third conjunct), purchase resolution, battle start and character
creation all preserve `0 ≤ hp ≤ max_hp`, `gold ≥ 0`, `level ≥ 1`. -/
theorem claim_C9 :
    (∀ (char : Character) (enemy : Enemy) (d : Int), charInvariant char →
      0 ≤ enemy.gold_reward → charInvariant (process_attack char (some enemy) d).char) ∧
    (∀ (char : Character) (inv : List Item) (offer : PurchaseOffer),
      charInvariant char → charInvariant (applyPurchase char inv offer).2.1) ∧
    (∀ (char : Character) (ed : EnemyData) (t : BattleTable), charInvariant char →
      charInvariant (start_battle char ed t).1 ∧
      0 ≤ ((start_battle char ed t).2.1).gold_reward) ∧
    (∀ (uid : Int) (nm : String), charInvariant (create_character uid nm).1) := by
  refine ⟨?_, ?_, ?_, ?_⟩
  · intro char enemy d hinv hg
    unfold charInvariant at hinv ⊢
    have hfe : Int.fdiv char.max_hp 2 = char.max_hp / 2 := Int.fdiv_eq_ediv _ (by omega)
    unfold process_attack
    dsimp only
    by_cases h1 : enemy.hp - d ≤ 0
    · by_cases h2 : char.level * 100 ≤ char.experience + enemy.experience_reward
      · simp [h1, h2]
        omega
      · simp [h1, h2]
        omega
    · by_cases h3 : char.hp - max 1 (enemy.damage - char.armor) ≤ 0
      · simp [h1, h3, hfe]
        omega
      · simp [h1, h3]
        omega
  · intro char inv offer hinv
    unfold charInvariant at hinv ⊢
    unfold applyPurchase
    by_cases h : offer.price ≤ char.gold
    · simp [h]
      omega
    · simp [h]
      omega
  · intro char ed t hinv
    refine ⟨hinv, ?_⟩
    unfold charInvariant at hinv
    show 0 ≤ 10 * char.level
    omega
  · intro uid nm
    simp [charInvariant, create_character]

/-! ## Claim C10 — at most one active battle row per player -/

/-- `List.find?` over a mapped list searches the original list with the
composed predicate. -/
theorem find_of_mapped (f : Int × Enemy → Int × Enemy) (p : Int × Enemy → Bool)
    (l : List (Int × Enemy)) :
    List.find? p (List.map f l) = Option.map f (List.find? (fun a => p (f a)) l) := by
  induction l with
  | nil => rfl
  | cons a l ih => by_cases h : p (f a) <;> simp [List.find?_cons, h, ih]

/-- Claim C10: the battle-table operations keep at most one row per player
identifier — the upsert `save_battle` and the delete `clear_battle` preserve
the invariant, and `start_battle` while a battle is already active leaves
exactly one row for that player, holding the replacement enemy. -/
theorem claim_C10 :
    (∀ (t : BattleTable) (uid : Int) (e : Enemy),
      pkInvariant t → pkInvariant (save_battle t uid e)) ∧
    (∀ (t : BattleTable) (uid : Int), pkInvariant t → pkInvariant (clear_battle t uid)) ∧
    (∀ (char : Character) (ed : EnemyData) (t : BattleTable) (e0 : Enemy),
      pkInvariant t → get_battle t char.user_id = some e0 →
      List.countP (fun r => r.1 == char.user_id) (start_battle char ed t).2.2 = 1 ∧
      get_battle (start_battle char ed t).2.2 char.user_id =
        some (start_battle char ed t).2.1) := by
  have key_eq : ∀ (uid : Int) (e : Enemy) (k : Int) (r : Int × Enemy),
      ((if r.1 == uid then (uid, e) else r).1 == k) = (r.1 == k) := by
    intro uid e k r
    by_cases hr : r.1 = uid
    · simp [hr]
    · simp [hr]
  refine ⟨?_, ?_, ?_⟩
  · intro t uid e hinv k
    unfold save_battle
    split
    · rw [List.countP_map]
      have hc : List.countP ((fun r => r.1 == k) ∘ fun r => if r.1 == uid then (uid, e) else r) t
          = List.countP (fun r : Int × Enemy => r.1 == k) t := by
        apply List.countP_congr
        intro r _
        simp only [Function.comp_apply, key_eq uid e k r]
      rw [hc]
      exact hinv k
    · rename_i hany
      rw [List.countP_append]
      have hle := hinv k
      by_cases hk : uid = k
      · subst hk
        have h0 : List.countP (fun r : Int × Enemy => r.1 == uid) t = 0 := by
          rw [List.countP_eq_zero]
          intro r hr
          intro hp
          exact hany (List.any_eq_true.mpr ⟨r, hr, hp⟩)
        simp [h0, List.countP_cons]
      · have h1 : List.countP (fun r : Int × Enemy => r.1 == k) [(uid, e)] = 0 := by
          simp [List.countP_cons, hk]
        omega
  · intro t uid hinv k
    unfold clear_battle
    exact le_trans (List.Sublist.countP_le _ (List.filter_sublist t)) (hinv k)
  · intro char ed t e0 hinv hget
    unfold get_battle at hget
    rw [Option.map_eq_some'] at hget
    obtain ⟨r0, hfind, _⟩ := hget
    have hp0 := List.find?_some hfind
    have hmem : r0 ∈ t := List.mem_of_find?_eq_some hfind
    have hany : List.any t (fun r => r.1 == char.user_id) = true :=
      List.any_eq_true.mpr ⟨r0, hmem, hp0⟩
    unfold start_battle
    dsimp only
    unfold save_battle
    rw [if_pos hany]
    constructor
    · rw [List.countP_map]
      have hc : List.countP ((fun r => r.1 == char.user_id) ∘
            fun r => if r.1 == char.user_id then
              (char.user_id,
               { name := ed.name, hp := ed.hp, max_hp := ed.hp, armor := ed.armor,
                 damage := ed.damage, experience_reward := 20 * char.level,
                 gold_reward := 10 * char.level }) else r) t
          = List.countP (fun r : Int × Enemy => r.1 == char.user_id) t := by
        apply List.countP_congr
        intro r _
        simp only [Function.comp_apply, key_eq _ _ _ r]
      rw [hc]
      have hpos : 0 < List.countP (fun r : Int × Enemy => r.1 == char.user_id) t :=
        List.countP_pos_iff.mpr ⟨r0, hmem, hp0⟩
      have hle := hinv char.user_id
      omega
    · unfold get_battle
      rw [find_of_mapped]
      have hsame : (fun a : Int × Enemy =>
          ((if a.1 == char.user_id then
              (char.user_id,
               ({ name := ed.name, hp := ed.hp, max_hp := ed.hp, armor := ed.armor,
                  damage := ed.damage, experience_reward := 20 * char.level,
                  gold_reward := 10 * char.level } : Enemy)) else a).1 == char.user_id))
          = (fun a : Int × Enemy => a.1 == char.user_id) := by
        funext a
        exact key_eq _ _ _ a
      rw [hsame, hfind]
      simp only [Option.map_some']
      simp [hp0]

end DndBot

